import Mathlib

/-!
Shallow embedding of `src/components/InterviewClient.tsx`: a browser chat
widget that exchanges interview questions and answers with a remote service
over a WebSocket, supporting typed text and recorded audio responses.

The React state and refs of the component become an explicit `ClientState`; every
event handler (`ws.onopen`, `ws.onclose`, `handleMessage`, `sendTextResponse`,
`mediaRecorder.onstop`) becomes a pure function from the state (and the
event data) to the next state together with the list of envelopes passed to
`ws.send` during the handler.  Handlers that can throw a JavaScript exception
return `Except JsError`; an `Except.error` result means the handler aborted at
the throwing statement and none of its later statements ran.
-/

/-- One question/response pair, `interface ChatItem` in the source. -/
structure QuestionBlock where
  question : String
  user_response : Option String
  agent_response : Option String
deriving Repr, DecidableEq

/-- Source `interface ChatItem`: an id plus a question block. -/
structure ChatItem where
  id : String
  question_block : QuestionBlock
deriving Repr, DecidableEq

/-- The object found at `data.data.chat_items` in an `initial_chat_data`
envelope: a page of chat items plus pagination data. -/
structure ChatItemsPayload where
  chat_items : List ChatItem
  has_more : Bool
  current_page : Int
deriving Repr, DecidableEq

/-- The `data` field of an inbound envelope.  Each handled event reads at most
one of these two optional members; a member that is absent in the JSON is
`none` (JavaScript `undefined`). -/
structure InboundData where
  chat_items : Option ChatItemsPayload
  chat_item : Option ChatItem
deriving Repr, DecidableEq

/-- A well-formed inbound envelope with an `event` tag and a `data` member. -/
structure InboundEnvelope where
  event : String
  data : InboundData
deriving Repr, DecidableEq

/-- Outbound envelopes, each an `action` tag with a `payload`, one constructor per `action` tag
the component ever sends.  `submit_user_response` carries an optional
`chat_item_id` because the audio path sends `currentChatItemIdRef.current`
unchecked, which may be `null`. -/
inductive Outbound where
  | authenticate (token : String)
  | get_chat_items (page : Int)
  | submit_user_response (chat_item_id : Option String) (response : String)
deriving Repr, DecidableEq

/-- Values of `WebSocket.readyState`. -/
inductive ReadyState where
  | CONNECTING
  | OPEN
  | CLOSING
  | CLOSED
deriving Repr, DecidableEq

/-- JavaScript exceptions the embedded handlers can raise:
`parseError` for `JSON.parse` on malformed input, `typeError` for a property
access on `undefined`, `readError` for a rejected `FileReader`. -/
inductive JsError where
  | parseError
  | typeError
  | readError
deriving Repr, DecidableEq

/-- The React state of the component (`status`, `messages`, `userInput`,
`isRecording`, `currentPage`, `hasMore`) together with the two refs the
handlers read and write: `currentChatItemIdRef` and the `readyState` of the
socket held in `wsRef` (`ws = none` models `wsRef.current === null`). -/
structure ClientState where
  status : String
  messages : List ChatItem
  userInput : String
  isRecording : Bool
  currentPage : Int
  hasMore : Bool
  currentChatItemId : Option String
  ws : Option ReadyState
deriving Repr, DecidableEq

/-- JavaScript truthiness of a string-or-null/undefined value: `null`,
`undefined` and the empty string are falsy, every other string is truthy. -/
def jsTruthy : Option String → Bool
  | none => false
  | some t => t != ""

/-- JavaScript `String.prototype.trim()`: removes leading and trailing
whitespace. -/
def jsTrim (s : String) : String :=
  String.mk
    (((s.data.dropWhile Char.isWhitespace).reverse.dropWhile
        Char.isWhitespace).reverse)

/-- Handler `ws.onopen` (lines 43-53): if `accessToken` is truthy, send an
`authenticate` envelope carrying it; in every case set status `Connected`. -/
def wsOnOpen (accessToken : Option String) (s : ClientState) :
    ClientState × List Outbound :=
  let sent : List Outbound :=
    match accessToken with
    | some t => if t ≠ "" then [Outbound.authenticate t] else []
    | none => []
  ({ s with status := "Connected" }, sent)

/-- Handler `ws.onclose` (lines 55-60): set status `Disconnected`; if the close code
is not 1000 (normal closure), schedule one `connectWebSocket` retry via
`setTimeout(connectWebSocket, 3000)`.  The second component lists the delays,
in milliseconds, of the timeouts scheduled by the handler. -/
def wsOnClose (code : Nat) (s : ClientState) : ClientState × List Nat :=
  ({ s with status := "Disconnected" },
   if code ≠ 1000 then [3000] else [])

/-- Dispatcher `handleMessage` (lines 75-88) after a successful `JSON.parse`: dispatch on
`data.event`.  `initial_chat_data` replaces the list and pagination state when
`data.data.chat_items` is present (an object is always truthy) and does
nothing when it is absent; `user_response_processed` and `new_question`
append `data.data.chat_item` and record its `id` in `currentChatItemIdRef`
(reading `.id` off an absent `chat_item` throws a `TypeError`); any other
event tag falls through both branches. -/
def handleMessage (env : InboundEnvelope) (s : ClientState) :
    Except JsError (ClientState × List Outbound) :=
  if env.event = "initial_chat_data" then
    match env.data.chat_items with
    | some p =>
        Except.ok ({ s with
          messages := p.chat_items
          hasMore := p.has_more
          currentPage := p.current_page }, [])
    | none => Except.ok (s, [])
  else if env.event = "user_response_processed" ∨ env.event = "new_question" then
    match env.data.chat_item with
    | some ci =>
        Except.ok ({ s with
          messages := s.messages ++ [ci]
          currentChatItemId := some ci.id }, [])
    | none => Except.error JsError.typeError
  else
    Except.ok (s, [])

/-- Handler `ws.onmessage` as wired on line 67: `JSON.parse(event.data)` is unguarded,
so a message whose data is not valid JSON (modelled as `parsed = none`)
throws before any dispatch runs. -/
def onMessage (parsed : Option InboundEnvelope) (s : ClientState) :
    Except JsError (ClientState × List Outbound) :=
  match parsed with
  | none => Except.error JsError.parseError
  | some env => handleMessage env s

/-- Function `sendTextResponse` (lines 104-115): guarded by
`userInput.trim() && currentChatItemIdRef.current &&
wsRef.current?.readyState === WebSocket.OPEN`; on success sends a
`submit_user_response` envelope with the trimmed input and clears the
input field, otherwise does nothing. -/
def sendTextResponse (s : ClientState) : ClientState × List Outbound :=
  match s.currentChatItemId with
  | some cid =>
      if jsTrim s.userInput ≠ "" ∧ cid ≠ "" ∧ s.ws = some ReadyState.OPEN then
        ({ s with userInput := "" },
         [Outbound.submit_user_response (some cid) (jsTrim s.userInput)])
      else (s, [])
  | none => (s, [])

/-- Removes the first occurrence of `pat` from a character list, the
behaviour of JavaScript `String.prototype.replace` with a plain string
pattern and an empty replacement (which replaces only the first match). -/
def dropFirstOcc (pat : List Char) : List Char → List Char
  | [] => []
  | c :: cs =>
      if pat.isPrefixOf (c :: cs) then List.drop pat.length (c :: cs)
      else c :: dropFirstOcc pat cs

/-- JavaScript `s.replace(pat, emptyString)` for a plain string `pat`:
removes the first occurrence of `pat` from `s`. -/
def jsReplaceFirst (s pat : String) : String :=
  String.mk (dropFirstOcc pat.data s.data)

/-- The fixed data-URI marker `data:audio/wav;base64,` the code strips in
`blobToBase64` and re-prepends in the stop handler of the recorder. -/
def audioDataUriTag : String := "data:audio/wav;base64,"

/-- The outcome of `FileReader.readAsDataURL` on the recorded blob:
`loaded dataUrl` when the read succeeds with result `dataUrl`, `failed` when
the reader errors (firing `reader.onerror`). -/
inductive FileReadResult where
  | loaded (dataUrl : String)
  | failed
deriving Repr, DecidableEq

/-- Function `blobToBase64` (lines 156-166): resolves with the result string
of the reader after removing the first occurrence of the data-URI marker
(a first-occurrence `replace` with an empty replacement), and rejects when
the reader errors. -/
def blobToBase64 : FileReadResult → Except JsError String
  | FileReadResult.loaded dataUrl =>
      Except.ok (jsReplaceFirst dataUrl audioDataUriTag)
  | FileReadResult.failed => Except.error JsError.readError

/-- Handler `mediaRecorder.onstop` (lines 133-146): awaits `blobToBase64` (a
rejection propagates out of the async handler, so nothing after the `await`
runs); then sends — through optional chaining, so only if a socket object
exists at all — a `submit_user_response` envelope whose `chat_item_id` is the
current (possibly null) correlation id and whose `response` is
the data-URI marker concatenated with `base64String`; finally it stops
every media track.
The `Bool` in the result records whether `stream.getTracks().forEach(track =>
track.stop())` on line 145 was reached. -/
def mediaRecorderOnStop (ws : Option ReadyState) (corrId : Option String)
    (reader : FileReadResult) : Except JsError (List Outbound × Bool) :=
  match blobToBase64 reader with
  | Except.error e => Except.error e
  | Except.ok base64String =>
      let sent : List Outbound :=
        match ws with
        | none => []
        | some _ =>
            [Outbound.submit_user_response corrId
              (audioDataUriTag ++ base64String)]
      Except.ok (sent, true)

/-- Whether a run of the stop handler reached the track-stopping statement:
`false` both when the handler threw earlier and when the run records the
tracks as not stopped. -/
def tracksStoppedAfter (r : Except JsError (List Outbound × Bool)) : Bool :=
  match r with
  | Except.ok (_, b) => b
  | Except.error _ => false

/-- A concrete state used by the witness theorems below. -/
def sampleState : ClientState :=
  { status := "Connected"
    messages := [⟨"q0", ⟨"Tell me about yourself", none, none⟩⟩]
    userInput := " hello "
    isRecording := false
    currentPage := 1
    hasMore := false
    currentChatItemId := some "q1"
    ws := some ReadyState.OPEN }

theorem dropFirstOcc_append_self (pat rest : List Char) (h : pat ≠ []) :
    dropFirstOcc pat (pat ++ rest) = rest := by
  match pat, h with
  | p :: ps, _ =>
    show dropFirstOcc (p :: ps) ((p :: ps) ++ rest) = rest
    rw [List.cons_append, dropFirstOcc, if_pos]
    · simp [List.drop_left (p :: ps) rest]
    · rw [List.isPrefixOf_iff_prefix]
      exact ⟨rest, by simp⟩

theorem jsReplaceFirst_append_self (tag rest : String) (h : tag.data ≠ []) :
    jsReplaceFirst (tag ++ rest) tag = rest := by
  unfold jsReplaceFirst
  have hdata : (tag ++ rest).data = tag.data ++ rest.data := by
    cases tag; cases rest; rfl
  rw [hdata, dropFirstOcc_append_self tag.data rest.data h]

/-- Claim C2: handling an `initial_chat_data` envelope whose payload carries a
chat-item page replaces the message list wholesale with the `chat_items`
list of the payload and sets `hasMore` and `currentPage` to the `has_more`
and `current_page` fields of the payload; nothing else changes and nothing is sent. -/
theorem handleMessage_initial_chat_data (env : InboundEnvelope)
    (s : ClientState) (p : ChatItemsPayload)
    (he : env.event = "initial_chat_data")
    (hp : env.data.chat_items = some p) :
    handleMessage env s =
      Except.ok ({ s with
        messages := p.chat_items
        hasMore := p.has_more
        currentPage := p.current_page }, []) := by
  unfold handleMessage
  rw [if_pos he, hp]

/-- Witness for C2 at a concrete envelope and state. -/
theorem handleMessage_initial_chat_data_witness :
    handleMessage
      ⟨"initial_chat_data",
       ⟨some ⟨[⟨"a", ⟨"Q1", none, none⟩⟩], true, 2⟩, none⟩⟩ sampleState =
      Except.ok ({ sampleState with
        messages := [⟨"a", ⟨"Q1", none, none⟩⟩]
        hasMore := true
        currentPage := 2 }, []) :=
  handleMessage_initial_chat_data _ _ _ rfl rfl

/-- Claim C3: handling a `new_question` or `user_response_processed` envelope
carrying a chat item appends exactly that item at the end of the message
list, leaves every previously listed item in place, and overwrites the
correlation id with the id of the item; moreover the two event tags produce
identical state transitions on any payload. -/
theorem handleMessage_new_item (env : InboundEnvelope) (s : ClientState)
    (ci : ChatItem)
    (he : env.event = "new_question" ∨ env.event = "user_response_processed")
    (hc : env.data.chat_item = some ci) :
    handleMessage env s =
      Except.ok ({ s with
        messages := s.messages ++ [ci]
        currentChatItemId := some ci.id }, [])
    ∧ ∀ d : InboundData, ∀ s' : ClientState,
        handleMessage ⟨"new_question", d⟩ s' =
          handleMessage ⟨"user_response_processed", d⟩ s' := by
  constructor
  · unfold handleMessage
    rcases he with he | he <;>
      rw [if_neg (by rw [he]; decide), if_pos (by rw [he]; simp), hc]
  · intro d s'
    rfl

/-- Witness for C3 at a concrete envelope and state. -/
theorem handleMessage_new_item_witness :
    handleMessage ⟨"new_question", ⟨none, some ⟨"q2", ⟨"Q2", none, none⟩⟩⟩⟩
        sampleState =
      Except.ok ({ sampleState with
        messages := sampleState.messages ++ [⟨"q2", ⟨"Q2", none, none⟩⟩]
        currentChatItemId := some "q2" }, []) :=
  (handleMessage_new_item _ _ _ (Or.inl rfl) rfl).1

/-- Claim C6: handling a well-formed envelope whose event tag is none of
`initial_chat_data`, `user_response_processed` and `new_question` leaves the
state unchanged and sends nothing. -/
theorem handleMessage_unknown_event (env : InboundEnvelope) (s : ClientState)
    (h1 : env.event ≠ "initial_chat_data")
    (h2 : env.event ≠ "user_response_processed")
    (h3 : env.event ≠ "new_question") :
    handleMessage env s = Except.ok (s, []) := by
  unfold handleMessage
  rw [if_neg h1, if_neg (by simp [h2, h3])]

/-- Witness for C6 at a concrete unknown tag. -/
theorem handleMessage_unknown_event_witness :
    handleMessage ⟨"server_heartbeat", ⟨none, none⟩⟩ sampleState =
      Except.ok (sampleState, []) :=
  handleMessage_unknown_event _ _ (by decide) (by decide) (by decide)

/-- Claim C8: an inbound message whose data is not valid JSON (the parse
yields nothing) makes the message handler throw — `JSON.parse` on line 76 is
unguarded — and no state transition is produced. -/
theorem onMessage_malformed_json (s : ClientState) :
    onMessage none s = Except.error JsError.parseError := rfl

/-- Claim C4: `sendTextResponse` sends a `submit_user_response` envelope
carrying the current correlation id and the trimmed input, and clears the
input, exactly when the trimmed input is non-empty, a (truthy) correlation id
exists and the socket is open; otherwise it sends nothing and leaves the
state unchanged. -/
theorem sendTextResponse_guarded (s : ClientState) :
    ((sendTextResponse s).2 ≠ [] ↔
      jsTrim s.userInput ≠ "" ∧ jsTruthy s.currentChatItemId = true ∧
        s.ws = some ReadyState.OPEN)
    ∧ (∀ cid, s.currentChatItemId = some cid → jsTrim s.userInput ≠ "" →
        cid ≠ "" → s.ws = some ReadyState.OPEN →
        sendTextResponse s =
          ({ s with userInput := "" },
           [Outbound.submit_user_response (some cid) (jsTrim s.userInput)]))
    ∧ (¬ (jsTrim s.userInput ≠ "" ∧ jsTruthy s.currentChatItemId = true ∧
          s.ws = some ReadyState.OPEN) →
        sendTextResponse s = (s, [])) := by
  cases hc : s.currentChatItemId with
  | none =>
      refine ⟨?_, ?_, ?_⟩
      · simp [sendTextResponse, hc, jsTruthy]
      · intro cid hcid
        exact absurd hcid (by simp)
      · intro h
        simp [sendTextResponse, hc]
  | some cid =>
      by_cases h : jsTrim s.userInput ≠ "" ∧ cid ≠ "" ∧ s.ws = some ReadyState.OPEN
      · refine ⟨?_, ?_, ?_⟩
        · simp [sendTextResponse, hc, jsTruthy, h.1, h.2.1, h.2.2]
        · intro cid' hcid'
          cases hcid'
          intro _ _ _
          simp [sendTextResponse, hc, h]
        · intro hneg
          exact absurd ⟨h.1, by simp [jsTruthy, hc, h.2.1], h.2.2⟩ hneg
      · refine ⟨?_, ?_, ?_⟩
        · constructor
          · intro hne
            exact absurd (by simp [sendTextResponse, hc, h]) hne
          · intro ⟨h1, h2, h3⟩
            simp only [jsTruthy, hc, bne_iff_ne, ne_eq, decide_eq_true_eq] at h2
            exact absurd ⟨h1, h2, h3⟩ h
        · intro cid' hcid' h1 h2 h3
          cases hcid'
          exact absurd ⟨h1, h2, h3⟩ h
        · intro _
          simp [sendTextResponse, hc, h]

/-- Witness for C4: at a concrete ready state the envelope is sent and the
input cleared. -/
theorem sendTextResponse_guarded_witness :
    sendTextResponse sampleState =
      ({ sampleState with userInput := "" },
       [Outbound.submit_user_response (some "q1") (jsTrim " hello ")]) :=
  (sendTextResponse_guarded sampleState).2.1 "q1" rfl (by decide) (by decide)
    rfl

/-- Claim C5: every close handler run sets the status to `Disconnected`; when
the close code is not 1000 it schedules exactly one reconnect attempt, after
3000 ms; when the code is 1000 it schedules none. -/
theorem wsOnClose_spec (code : Nat) (s : ClientState) :
    (wsOnClose code s).1 = { s with status := "Disconnected" }
    ∧ (code ≠ 1000 → (wsOnClose code s).2 = [3000])
    ∧ (code = 1000 → (wsOnClose code s).2 = []) := by
  refine ⟨rfl, fun h => ?_, fun h => ?_⟩ <;> simp [wsOnClose, h]

/-- Witness for C5 at close codes 1006 and 1000. -/
theorem wsOnClose_spec_witness :
    (wsOnClose 1006 sampleState).2 = [3000]
    ∧ (wsOnClose 1000 sampleState).2 = [] :=
  ⟨(wsOnClose_spec 1006 sampleState).2.1 (by decide),
   (wsOnClose_spec 1000 sampleState).2.2 rfl⟩

/-- Claim C7: on socket open an `authenticate` envelope carrying the access
token is sent exactly when a (truthy) token is present, and in every case the
status is set to `Connected`. -/
theorem wsOnOpen_spec (tok : Option String) (s : ClientState) :
    (wsOnOpen tok s).1 = { s with status := "Connected" }
    ∧ ((wsOnOpen tok s).2 ≠ [] ↔ jsTruthy tok = true)
    ∧ (∀ t, tok = some t → t ≠ "" →
        (wsOnOpen tok s).2 = [Outbound.authenticate t])
    ∧ (jsTruthy tok = false → (wsOnOpen tok s).2 = []) := by
  cases tok with
  | none => refine ⟨rfl, by simp [wsOnOpen, jsTruthy], by simp, by simp [wsOnOpen]⟩
  | some t =>
      by_cases h : t = ""
      · subst h
        refine ⟨rfl, by simp [wsOnOpen, jsTruthy], ?_, by simp [wsOnOpen]⟩
        intro t' ht'
        cases ht'
        intro h'
        exact absurd rfl h'
      · refine ⟨rfl, by simp [wsOnOpen, jsTruthy, h], ?_, by simp [jsTruthy, h]⟩
        intro t' ht'
        cases ht'
        intro _
        simp [wsOnOpen, h]

/-- Witness for C7: a non-empty token is sent in an authenticate envelope. -/
theorem wsOnOpen_spec_witness :
    (wsOnOpen (some "tok123") sampleState).2 = [Outbound.authenticate "tok123"] :=
  (wsOnOpen_spec (some "tok123") sampleState).2.2.1 "tok123" rfl (by decide)

/-- Counterexample to claim C1: when the `FileReader` fails, `blobToBase64`
rejects, the awaited rejection propagates out of the stop handler, and the
track-stopping statement on line 145 is never reached — so the stop handler
does not release the media tracks on every termination of a recording. -/
theorem mediaRecorderOnStop_reader_failure_no_track_stop :
    tracksStoppedAfter
        (mediaRecorderOnStop (some ReadyState.OPEN) (some "q1")
          FileReadResult.failed) = false
    ∧ mediaRecorderOnStop (some ReadyState.OPEN) (some "q1")
        FileReadResult.failed = Except.error JsError.readError :=
  ⟨rfl, rfl⟩

/-- Claim C1 (amended): whenever base64-encoding the blob succeeds, the stop
handler stops all media tracks regardless of whether a socket object exists,
of the ready state of the socket, and of the correlation id; when the read fails,
the handler throws before reaching the track-stopping statement. -/
theorem mediaRecorderOnStop_stops_tracks_on_read_success
    (ws : Option ReadyState) (corrId : Option String) (dataUrl : String) :
    tracksStoppedAfter
      (mediaRecorderOnStop ws corrId (FileReadResult.loaded dataUrl)) = true := by
  cases ws <;> rfl

/-- Claim C9: the audio submission is unguarded: whenever a socket object
exists, the stop handler sends the `submit_user_response` envelope whatever
the ready state of the socket, with `chat_item_id` equal to the current (possibly
null) correlation id; the send is skipped only when no socket object exists,
and the tracks are stopped either way. -/
theorem mediaRecorderOnStop_send_unguarded (rs : ReadyState)
    (corrId : Option String) (dataUrl : String) :
    mediaRecorderOnStop (some rs) corrId (FileReadResult.loaded dataUrl) =
      Except.ok ([Outbound.submit_user_response corrId
        (audioDataUriTag ++ jsReplaceFirst dataUrl audioDataUriTag)], true)
    ∧ mediaRecorderOnStop none corrId (FileReadResult.loaded dataUrl) =
      Except.ok ([], true) :=
  ⟨rfl, rfl⟩

/-- Claim C10: for a data URL of the shape `readAsDataURL` produces on an
`audio/wav` blob — the fixed marker followed by the base64 payload —
`blobToBase64` strips exactly the marker, and the stop handler re-prepends
it, so the response string sent equals the original data URL (a round
trip). -/
theorem audio_response_round_trip (rest : String) (rs : ReadyState)
    (corrId : Option String) :
    blobToBase64 (FileReadResult.loaded (audioDataUriTag ++ rest)) =
      Except.ok rest
    ∧ mediaRecorderOnStop (some rs) corrId
        (FileReadResult.loaded (audioDataUriTag ++ rest)) =
      Except.ok ([Outbound.submit_user_response corrId
        (audioDataUriTag ++ rest)], true) := by
  have h : jsReplaceFirst (audioDataUriTag ++ rest) audioDataUriTag = rest :=
    jsReplaceFirst_append_self audioDataUriTag rest (by decide)
  exact ⟨by simp [blobToBase64, h], by simp [mediaRecorderOnStop, blobToBase64, h]⟩
